import Mathlib

/-
Shallow embedding of the llm-system-monitor repository (four Python source
files: system_info_collector.py, llm_processor.py, system_monitor_agent.py,
main.py).  The CORE modelled here is the query-to-function dispatch
orchestrator: the metrics registry (SystemInfoCollector.call_function /
call_multiple_functions), the intent parser and response synthesizer
(LLMQueryProcessor.parse_query / generate_response / test_connection) and the
orchestrator (SystemMonitorAgent.handle_query / test_components).

Modelling conventions:
- Python values flowing through the pipeline (json.loads results, collector
  payloads, dict records) are modelled by the inductive type `JValue`.
- A Python dict is an association list with unique keys; assignment
  `d[k] = v` is `dictInsert`, which updates the existing entry in place
  (preserving its insertion position, as CPython dicts do) or appends a new
  entry at the end.
- Raising Python code is modelled with `Except PyErr`; code wrapped in
  try/except that cannot raise is modelled as a total function.
- The individual psutil-backed collectors are external effectful
  collaborators (out of the spec's scope); a collector is modelled as a
  state-transforming function that either returns a payload or raises,
  so that two invocations of the same collector may return different
  results (as real telemetry does).
- The OpenAI chat client is an external collaborator; one call either raises
  or returns a message content string.  The content string is modelled
  together with its image under Python's json.loads (`Content.loads`,
  `none` meaning json.loads raises json.JSONDecodeError on the text), since
  json.loads is the only consumer of the parse-stage content.
-/

namespace SysMon

/-- Python/JSON value domain for the data flowing through the pipeline. -/
inductive JValue where
  | null : JValue
  | bool (b : Bool) : JValue
  | num (n : Int) : JValue
  | str (s : String) : JValue
  | arr (elems : List JValue) : JValue
  | obj (fields : List (String × JValue)) : JValue

/-- A Python dict with string keys, as an insertion-ordered association list. -/
abbrev PyDict := List (String × JValue)

mutual

/-- Python `str()` rendering of a `JValue` (single-quoted strings, True/None). -/
def pyStr : JValue → String
  | JValue.null => "None"
  | JValue.bool b => if b then "True" else "False"
  | JValue.num n => toString n
  | JValue.str s => "\x27" ++ s ++ "\x27"
  | JValue.arr elems => "[" ++ pyStrElems elems ++ "]"
  | JValue.obj fields => "\x7b" ++ pyStrFields fields ++ "\x7d"

/-- Renders list elements for `pyStr`, comma-separated. -/
def pyStrElems : List JValue → String
  | [] => ""
  | [v] => pyStr v
  | v :: rest => pyStr v ++ ", " ++ pyStrElems rest

/-- Renders dict entries for `pyStr`, comma-separated. -/
def pyStrFields : List (String × JValue) → String
  | [] => ""
  | [(k, v)] => "\x27" ++ k ++ "\x27: " ++ pyStr v
  | (k, v) :: rest => "\x27" ++ k ++ "\x27: " ++ pyStr v ++ ", " ++ pyStrFields rest

end

mutual

/-- Python `json.dumps` rendering of a `JValue` (double-quoted strings,
true/null).  The indent-2 whitespace of the source's `json.dumps(..., indent=2)`
is not reproduced; no claim depends on prompt whitespace.  String escaping is
likewise omitted. -/
def jsonDumps : JValue → String
  | JValue.null => "null"
  | JValue.bool b => if b then "true" else "false"
  | JValue.num n => toString n
  | JValue.str s => "\"" ++ s ++ "\""
  | JValue.arr elems => "[" ++ jsonDumpsElems elems ++ "]"
  | JValue.obj fields => "\x7b" ++ jsonDumpsFields fields ++ "\x7d"

/-- Renders list elements for `jsonDumps`, comma-separated. -/
def jsonDumpsElems : List JValue → String
  | [] => ""
  | [v] => jsonDumps v
  | v :: rest => jsonDumps v ++ ", " ++ jsonDumpsElems rest

/-- Renders dict entries for `jsonDumps`, comma-separated. -/
def jsonDumpsFields : List (String × JValue) → String
  | [] => ""
  | [(k, v)] => "\"" ++ k ++ "\": " ++ jsonDumps v
  | (k, v) :: rest => "\"" ++ k ++ "\": " ++ jsonDumps v ++ ", " ++ jsonDumpsFields rest

end

/-- Python type name of a `JValue`, as it appears in CPython error messages. -/
def pyTypeName : JValue → String
  | JValue.null => "NoneType"
  | JValue.bool _ => "bool"
  | JValue.num _ => "int"
  | JValue.str _ => "str"
  | JValue.arr _ => "list"
  | JValue.obj _ => "dict"

/-- CPython dict assignment `d[k] = v`: update the existing entry for `k` in
place (keeping its position), or append a new entry at the end. -/
def dictInsert : PyDict → String → JValue → PyDict
  | [], k, v => [(k, v)]
  | p :: rest, k, v =>
    if p.1 == k then (k, v) :: rest else p :: dictInsert rest k v

/-- Exceptions that the modelled code can raise past a component boundary. -/
inductive PyErr where
  | attributeError (msg : String) : PyErr
  | typeError (msg : String) : PyErr
deriving DecidableEq

/-- Python `v.get(key, default)`: association lookup on dicts; any non-dict
receiver raises AttributeError (e.g. `[].get(...)`), exactly as in CPython. -/
def pyGet (v : JValue) (key : String) (dflt : JValue) : Except PyErr JValue :=
  match v with
  | JValue.obj fields => Except.ok ((List.lookup key fields).getD dflt)
  | other =>
    Except.error (PyErr.attributeError
      ("\x27" ++ pyTypeName other ++ "\x27 object has no attribute \x27get\x27"))

/-- Outcome of one invocation of a psutil-backed collector: a returned payload
or a raised exception carrying `str(e)`. -/
inductive CollOutcome where
  | ok (v : JValue) : CollOutcome
  | exn (msg : String) : CollOutcome

/-- A collector method of SystemInfoCollector: an effectful external
collaborator, modelled as a transformer of an abstract telemetry state. -/
def Collector (σ : Type) := σ → CollOutcome × σ

/-- The `available_functions` mapping built in SystemInfoCollector.__init__:
function name to bound collector method. -/
abbrev Registry (σ : Type) := List (String × Collector σ)

/-- SystemInfoCollector.get_function_list: `list(self.available_functions.keys())`. -/
def get_function_list {σ : Type} (reg : Registry σ) : List String :=
  reg.map Prod.fst

/-- The `{'error': msg}` record built by SystemInfoCollector.call_function. -/
def errorRecord (msg : String) : JValue :=
  JValue.obj [("error", JValue.str msg)]

/-- SystemInfoCollector.call_function: dispatch by name over
`available_functions`; a missing name or a raising collector produces an
`{'error': ...}` record instead of an exception (the try/except in the
source), so the function is total. -/
def call_function {σ : Type} (reg : Registry σ) (s : σ) (functionName : String) :
    JValue × σ :=
  match List.lookup functionName reg with
  | some coll =>
    match coll s with
    | (CollOutcome.ok v, s') => (v, s')
    | (CollOutcome.exn e, s') =>
      (errorRecord ("Error calling " ++ functionName ++ ": " ++ e), s')
  | none => (errorRecord ("Unknown function: " ++ functionName), s)

/-- The loop body of SystemInfoCollector.call_multiple_functions:
`results[func_name] = self.call_function(func_name)` over the accumulator
dict, threading the telemetry state left to right. -/
def callMultipleGo {σ : Type} (reg : Registry σ) (acc : PyDict) :
    σ → List String → PyDict × σ
  | s, [] => (acc, s)
  | s, n :: ns =>
    callMultipleGo reg (dictInsert acc n (call_function reg s n).1)
      (call_function reg s n).2 ns

/-- SystemInfoCollector.call_multiple_functions: starts from `results = {}`. -/
def call_multiple_functions {σ : Type} (reg : Registry σ) (s : σ)
    (functionNames : List String) : PyDict × σ :=
  callMultipleGo reg [] s functionNames

/-- The sequence of invocations performed by call_multiple_functions, in input
order, before the results are collapsed into a dict: one `(name, result)` pair
per entry of the input list. -/
def callTrace {σ : Type} (reg : Registry σ) : σ → List String → List (String × JValue) × σ
  | s, [] => ([], s)
  | s, n :: ns =>
    ((n, (call_function reg s n).1) :: (callTrace reg (call_function reg s n).2 ns).1,
     (callTrace reg (call_function reg s n).2 ns).2)

/-- The value written last for key `k` in a sequence of writes (the
last-write-wins value), or `none` if `k` is never written. -/
def lastWrite (k : String) : List (String × JValue) → Option JValue
  | [] => none
  | p :: rest =>
    match lastWrite k rest with
    | some v => some v
    | none => if p.1 == k then some p.2 else none

/-- Folding a write trace into a dict starting from accumulator `acc`. -/
def dictOfFrom (acc : PyDict) (t : List (String × JValue)) : PyDict :=
  t.foldl (fun d p => dictInsert d p.1 p.2) acc

/-- The content string of one chat completion, modelled together with its
image under Python's `json.loads` (`none`: json.loads raises
json.JSONDecodeError on this text). -/
structure Content where
  text : String
  loads : Option JValue

/-- Behaviour of one call to the OpenAI chat client: the call raises, or it
returns a message content. -/
inductive LLMReply where
  | raises (msg : String) : LLMReply
  | returns (content : Content) : LLMReply

/-- One request to `client.chat.completions.create`.  The float-valued
`temperature` argument of the source is omitted from the model; no claim
depends on sampling parameters. -/
structure ChatRequest where
  model : String
  messages : List (String × String)
  maxTokens : Nat

/-- LLMQueryProcessor: the configured model name together with the external
chat client, modelled as a function from request to reply. -/
structure LLMProc where
  model : String
  send : ChatRequest → LLMReply

/-- LLMQueryProcessor._get_function_description: the `descriptions` dict with
default value. -/
def getFunctionDescription (funcName : String) : String :=
  (List.lookup funcName
    [("get_battery_info", "Battery percentage, charging status, time remaining"),
     ("get_cpu_info", "CPU usage, cores, frequency"),
     ("get_memory_info", "RAM usage, available memory, swap"),
     ("get_disk_info", "Disk usage, free space, partitions"),
     ("get_network_info", "Network statistics, data transferred"),
     ("get_processes_info", "Running processes, CPU/memory usage"),
     ("get_system_info", "OS, platform, architecture details"),
     ("get_uptime_info", "System uptime, boot time"),
     ("get_temperature_info", "System temperatures (if available)")]).getD
    ("System information")

/-- LLMQueryProcessor.get_system_prompt_for_parsing: the parse-stage system
prompt (the source's triple-quoted f-string, including its embedded
indentation; literal braces of the worked JSON examples appear as escapes). -/
def get_system_prompt_for_parsing (availableFunctions : List String) : String :=
  String.intercalate ("\n")
      (availableFunctions.map (fun func => "- " ++ func ++ ": " ++ getFunctionDescription func))
    |> fun functionsDesc =>
  "You are a system monitor query parser. Your job is to analyze user queries about computer system information and determine which system functions to call.\n\n"
    ++ "        Available functions:\n        " ++ functionsDesc ++ "\n        \n"
    ++ "        Respond with a JSON object containing:\n"
    ++ "        1. \"functions_to_call\": Array of function names to call\n"
    ++ "        2. \"response_style\": How to format the response (\"brief\", \"detailed\", \"conversational\")\n"
    ++ "        3. \"focus\": What aspect the user is most interested in\n"
    ++ "        4. \"reasoning\": Brief explanation of your parsing\n        \n"
    ++ "        Examples:\n"
    ++ "        Query: \"What\x27s my battery percentage?\" \n"
    ++ "        Response: \x7b\"functions_to_call\": [\"get_battery_info\"], \"response_style\": \"brief\", \"focus\": \"battery_percentage\", \"reasoning\": \"User wants specific battery percentage\"\x7d\n        \n"
    ++ "        Query: \"Give me a full system overview\"\n"
    ++ "        Response: \x7b\"functions_to_call\": [\"get_battery_info\", \"get_cpu_info\", \"get_memory_info\", \"get_disk_info\"], \"response_style\": \"detailed\", \"focus\": \"system_overview\", \"reasoning\": \"User wants comprehensive system status\"\x7d\n        \n"
    ++ "        Query: \"Is my laptop running hot?\"\n"
    ++ "        Response: \x7b\"functions_to_call\": [\"get_temperature_info\", \"get_cpu_info\"], \"response_style\": \"conversational\", \"focus\": \"temperature\", \"reasoning\": \"User concerned about system temperature\"\x7d"

/-- The parse-stage chat request built inside LLMQueryProcessor.parse_query. -/
def parseRequest (p : LLMProc) (userQuery : String) (availableFunctions : List String) :
    ChatRequest :=
  { model := p.model
    messages := [("system", get_system_prompt_for_parsing availableFunctions),
                 ("user", userQuery)]
    maxTokens := 200 }

/-- The fixed default triple of collectors named in both fallback descriptors
of LLMQueryProcessor.parse_query. -/
def fallbackFunctions : JValue :=
  JValue.arr [JValue.str ("get_battery_info"), JValue.str ("get_cpu_info"),
              JValue.str ("get_memory_info")]

/-- The fallback IntentDescriptor returned by parse_query from its
`except json.JSONDecodeError` branch. -/
def parseErrorFallback : JValue :=
  JValue.obj [("functions_to_call", fallbackFunctions),
              ("response_style", JValue.str ("brief")),
              ("focus", JValue.str ("general")),
              ("reasoning", JValue.str ("Fallback due to parsing error"))]

/-- The fallback IntentDescriptor returned by parse_query from its
`except Exception` branch. -/
def apiErrorFallback : JValue :=
  JValue.obj [("functions_to_call", fallbackFunctions),
              ("response_style", JValue.str ("brief")),
              ("focus", JValue.str ("general")),
              ("reasoning", JValue.str ("Fallback due to API error"))]

/-- LLMQueryProcessor.parse_query: one chat call; `json.loads` of the content
on success; the JSONDecodeError branch and the generic Exception branch each
return their hard-coded fallback descriptor, so the function is total. -/
def parse_query (p : LLMProc) (userQuery : String) (availableFunctions : List String) :
    JValue :=
  match p.send (parseRequest p userQuery availableFunctions) with
  | LLMReply.returns c =>
    match c.loads with
    | some v => v
    | none => parseErrorFallback
  | LLMReply.raises _ => apiErrorFallback

/-- Python `str()` as applied by an f-string substitution: a str renders
without quotes, any other value as `pyStr`. -/
def fmtVal : JValue → String
  | JValue.str s => s
  | v => pyStr v

/-- The synthesis-stage system prompt built inside
LLMQueryProcessor.generate_response (after the two `.get` calls for
response_style and focus have been evaluated). -/
def synthesisPrompt (userQuery : String) (systemData : PyDict)
    (parsingResult style focus : JValue) : String :=
  "You are a helpful system monitor assistant. Generate a natural, conversational response to the user\x27s query about their computer system.\n\n"
    ++ "        User\x27s query: \"" ++ userQuery ++ "\"\n"
    ++ "        Parsing result: " ++ jsonDumps parsingResult ++ "\n"
    ++ "        System data: " ++ jsonDumps (JValue.obj systemData) ++ "\n        \n"
    ++ "        Guidelines:\n"
    ++ "        - Be conversational and helpful\n"
    ++ "        - Use the response_style from parsing: " ++ fmtVal style ++ "\n"
    ++ "        - Focus on what the user asked about: " ++ fmtVal focus ++ "\n"
    ++ "        - Include relevant emojis\n"
    ++ "        - If there are any errors in the data, mention them helpfully\n"
    ++ "        - Convert technical units to user-friendly formats\n"
    ++ "        - Be concise but informative\n        \n"
    ++ "        Generate a response that directly answers the user\x27s question using the system data provided."

/-- The synthesis-stage chat request built inside generate_response. -/
def synthesisRequest (p : LLMProc) (userQuery : String) (systemData : PyDict)
    (parsingResult style focus : JValue) : ChatRequest :=
  { model := p.model
    messages := [("system", synthesisPrompt userQuery systemData parsingResult style focus),
                 ("user", "Please respond to: " ++ userQuery)]
    maxTokens := 300 }

/-- The fixed fallback string of generate_response's `except Exception`
branch: the f-string renders the DataBundle with Python `str()`. -/
def synthFallback (systemData : PyDict) : String :=
  "I gathered your system information but had trouble generating a response. Here\x27s the raw data: "
    ++ pyStr (JValue.obj systemData)

/-- LLMQueryProcessor.generate_response: the two `.get` calls on the parsing
result happen during prompt construction, outside the try block, and raise
AttributeError on a non-dict parsing result; once the prompt is built, a
raising chat call is absorbed into the fixed fallback string. -/
def generate_response (p : LLMProc) (userQuery : String) (systemData : PyDict)
    (parsingResult : JValue) : Except PyErr String := do
  let style ← pyGet parsingResult ("response_style") (JValue.str ("conversational"))
  let focus ← pyGet parsingResult ("focus") (JValue.str ("general"))
  match p.send (synthesisRequest p userQuery systemData parsingResult style focus) with
  | LLMReply.returns c => Except.ok c.text.trim
  | LLMReply.raises _ => Except.ok (synthFallback systemData)

/-- Python's `needle in hay` on strings. -/
def pyStrContains (hay needle : String) : Bool :=
  2 ≤ (hay.splitOn needle).length

/-- LLMQueryProcessor.test_connection: one minimal canned chat call; true when
the content contains "OK", false when the call raises. -/
def test_connection (p : LLMProc) : Bool :=
  match p.send { model := p.model
                 messages := [("user", "Hello, respond with \x27OK\x27 if you can hear me.")]
                 maxTokens := 10 } with
  | LLMReply.returns c => pyStrContains c.text ("OK")
  | LLMReply.raises _ => false

/-- SystemMonitorAgent: the collector registry together with the LLM
processor, wired in __init__. -/
structure Agent (σ : Type) where
  registry : Registry σ
  llm : LLMProc

/-- Whether a `JValue` is a Python str. -/
def isStr : JValue → Bool
  | JValue.str _ => true
  | _ => false

/-- Converts the elements iterated from a functions_to_call value into the
`List[str]` that SystemInfoCollector.call_multiple_functions declares.
Elements outside that declared contract are modelled as a raise.  (CPython
tolerates a few more shapes — hashable non-strings are looked up, reported as
unknown functions — but no theorem below concerns such inputs.) -/
def elemsToNames : List JValue → Except PyErr (List String)
  | [] => Except.ok []
  | JValue.str s :: rest => (elemsToNames rest).map (fun ns => s :: ns)
  | v :: _ =>
    Except.error (PyErr.typeError ("function name of Python type " ++ pyTypeName v))

/-- Iterating the functions_to_call value as the `for func_name in
function_names` loop does: a non-list value is outside the registry's declared
`List[str]` contract and is modelled as a TypeError (CPython raises for
non-iterable values here). -/
def asNameList : JValue → Except PyErr (List String)
  | JValue.arr elems => elemsToNames elems
  | v =>
    Except.error (PyErr.typeError ("\x27" ++ pyTypeName v ++ "\x27 object is not iterable"))

/-- SystemMonitorAgent.handle_query: parse with the LLM, then collect, then
synthesize.  The `.get` call in the progress print of step 1 and the `.get`
defaulting functions_to_call to `[]` in step 2 run outside any try block, so a
non-dict parse result makes handle_query itself raise. -/
def handle_query {σ : Type} (ag : Agent σ) (s : σ) (userQuery : String) :
    Except PyErr (String × σ) := do
  let availableFunctions := get_function_list ag.registry
  let parsingResult := parse_query ag.llm userQuery availableFunctions
  let _ ← pyGet parsingResult ("reasoning") (JValue.str ("No reasoning provided"))
  let ftc ← pyGet parsingResult ("functions_to_call") (JValue.arr [])
  let functionsToCall ← asNameList ftc
  let r := call_multiple_functions ag.registry s functionsToCall
  let response ← generate_response ag.llm userQuery r.1 parsingResult
  Except.ok (response, r.2)

/-- SystemMonitorAgent.get_available_functions. -/
def get_available_functions {σ : Type} (ag : Agent σ) : List String :=
  get_function_list ag.registry

/-- SystemMonitorAgent.get_raw_system_data. -/
def get_raw_system_data {σ : Type} (ag : Agent σ) (s : σ)
    (functionNames : List String) : PyDict × σ :=
  call_multiple_functions ag.registry s functionNames

/-- SystemMonitorAgent.test_components: probes the representative collector
(the source calls the bound method `self.system_collector.get_cpu_info()`
directly; here the bound methods are the registry entries, and the `none`
branch is unreachable for agents modelling the source class, whose registry
always has "get_cpu_info"), then probes the LLM connection. -/
def test_components {σ : Type} (ag : Agent σ) (s : σ) : List (String × Bool) × σ :=
  match List.lookup ("get_cpu_info") ag.registry with
  | some coll =>
    match coll s with
    | (CollOutcome.ok _, s') =>
      ([("system_collector", true), ("llm_processor", test_connection ag.llm)], s')
    | (CollOutcome.exn _, s') =>
      ([("system_collector", false), ("llm_processor", test_connection ag.llm)], s')
  | none => ([("system_collector", false), ("llm_processor", test_connection ag.llm)], s)

/-- Whether a `JValue` is a JSON array all of whose elements are strings, the
shape the IntentDescriptor declares for functions_to_call. -/
def isNameArr : JValue → Bool
  | JValue.arr elems => elems.all isStr
  | _ => false

/-- Replies of the parse-stage model call under which handle_query is safe: a
raising call, non-JSON content, or a JSON object whose functions_to_call
field, when present, is an array of strings. -/
def goodParseReply : LLMReply → Bool
  | LLMReply.raises _ => true
  | LLMReply.returns c =>
    match c.loads with
    | none => true
    | some (JValue.obj fields) =>
      match List.lookup ("functions_to_call") fields with
      | none => true
      | some v => isNameArr v
    | some _ => false

/-- A collector for concrete examples: returns the current telemetry state as
its payload and advances it, so successive invocations differ. -/
def counterColl : Collector Nat :=
  fun n => (CollOutcome.ok (JValue.num (Int.ofNat n)), n + 1)

/-- A collector for concrete examples that always raises with message "boom". -/
def boomColl : Collector Nat :=
  fun n => (CollOutcome.exn ("boom"), n)

/-- A small concrete registry exposing the three default collectors. -/
def demoRegistry : Registry Nat :=
  [("get_battery_info", counterColl), ("get_cpu_info", counterColl),
   ("get_memory_info", counterColl)]

/-- A concrete registry whose only collector raises. -/
def boomRegistry : Registry Nat :=
  [("get_cpu_info", boomColl)]

/-- A chat client that raises on every request (service unreachable). -/
def downLLM : LLMProc :=
  { model := "gpt-4o-mini"
    send := fun _ => LLMReply.raises ("service unavailable") }

/-- A chat client that answers every request with prose that is not JSON. -/
def notJsonLLM : LLMProc :=
  { model := "gpt-4o-mini"
    send := fun _ => LLMReply.returns { text := "Sure! Here are your stats.", loads := none } }

/-- A chat client that answers every request with the JSON text of an empty
object. -/
def emptyObjLLM : LLMProc :=
  { model := "gpt-4o-mini"
    send := fun _ => LLMReply.returns { text := "\x7b\x7d", loads := some (JValue.obj []) } }

/-- A chat client that answers every request with the JSON array [1, 2, 3]. -/
def arrayLLM : LLMProc :=
  { model := "gpt-4o-mini"
    send := fun _ => LLMReply.returns
      { text := "[1, 2, 3]"
        loads := some (JValue.arr [JValue.num 1, JValue.num 2, JValue.num 3]) } }

/-- A chat client that answers every request with a JSON object that lacks
the functions_to_call field. -/
def missingFieldLLM : LLMProc :=
  { model := "gpt-4o-mini"
    send := fun _ => LLMReply.returns
      { text := "\x7b\"reasoning\": \"hi\"\x7d"
        loads := some (JValue.obj [("reasoning", JValue.str ("hi"))]) } }

/-- Concrete agent: working collectors, unreachable model service. -/
def demoAgentDown : Agent Nat :=
  { registry := demoRegistry, llm := downLLM }

/-- Concrete agent: working collectors, model replying with a JSON array. -/
def demoAgentArray : Agent Nat :=
  { registry := demoRegistry, llm := arrayLLM }

/-- Concrete agent: working collectors, model replying with an object missing
functions_to_call. -/
def demoAgentMissing : Agent Nat :=
  { registry := demoRegistry, llm := missingFieldLLM }

/-
Supporting lemmas about the Python dict model and the invocation trace.
-/

theorem lookup_dictInsert (d : PyDict) (k a : String) (v : JValue) :
    List.lookup a (dictInsert d k v) = if a = k then some v else List.lookup a d := by
  induction d with
  | nil =>
    by_cases h : a = k
    · subst h; simp [dictInsert, List.lookup]
    · have hbeq : (a == k) = false := beq_eq_false_iff_ne.mpr h
      simp [dictInsert, List.lookup, hbeq, h]
  | cons p rest ih =>
    obtain ⟨pk, pv⟩ := p
    by_cases hpk : pk = k
    · have hd : dictInsert ((pk, pv) :: rest) k v = (k, v) :: rest := by
        simp [dictInsert, hpk]
      rw [hd]
      by_cases h : a = k
      · subst h; simp [List.lookup]
      · have hbeq : (a == k) = false := beq_eq_false_iff_ne.mpr h
        have hap : (a == pk) = false := beq_eq_false_iff_ne.mpr (hpk ▸ h)
        simp [List.lookup, hbeq, hap, h]
    · have hd : dictInsert ((pk, pv) :: rest) k v = (pk, pv) :: dictInsert rest k v := by
        simp [dictInsert, hpk]
      rw [hd]
      by_cases h : a = pk
      · have hak : ¬a = k := fun hh => hpk (h.symm.trans hh)
        have hbeq : (a == pk) = true := beq_iff_eq.mpr h
        simp [List.lookup, hbeq, hak]
      · have hbeq : (a == pk) = false := beq_eq_false_iff_ne.mpr h
        simp [List.lookup, hbeq, ih]

theorem mem_keys_dictInsert (d : PyDict) (k a : String) (v : JValue) :
    a ∈ (dictInsert d k v).map Prod.fst ↔ a ∈ d.map Prod.fst ∨ a = k := by
  induction d with
  | nil => simp [dictInsert]
  | cons p rest ih =>
    obtain ⟨pk, pv⟩ := p
    by_cases hpk : pk = k
    · have hd : dictInsert ((pk, pv) :: rest) k v = (k, v) :: rest := by
        simp [dictInsert, hpk]
      rw [hd]
      subst hpk
      simp only [List.map_cons, List.mem_cons]
      tauto
    · have hd : dictInsert ((pk, pv) :: rest) k v = (pk, pv) :: dictInsert rest k v := by
        simp [dictInsert, hpk]
      rw [hd]
      simp only [List.map_cons, List.mem_cons, ih]
      tauto

theorem nodup_keys_dictInsert (d : PyDict) (k : String) (v : JValue) :
    (d.map Prod.fst).Nodup → ((dictInsert d k v).map Prod.fst).Nodup := by
  induction d with
  | nil => intro _; simp [dictInsert]
  | cons p rest ih =>
    intro h
    obtain ⟨pk, pv⟩ := p
    by_cases hpk : pk = k
    · have hd : dictInsert ((pk, pv) :: rest) k v = (k, v) :: rest := by
        simp [dictInsert, hpk]
      rw [hd]
      subst hpk
      simpa using h
    · have hd : dictInsert ((pk, pv) :: rest) k v = (pk, pv) :: dictInsert rest k v := by
        simp [dictInsert, hpk]
      rw [hd]
      simp only [List.map_cons, List.nodup_cons] at h ⊢
      refine ⟨?_, ih h.2⟩
      intro hc
      rcases (mem_keys_dictInsert rest k pk v).mp hc with hmem | heq
      · exact h.1 hmem
      · exact hpk heq

theorem length_dictInsert (d : PyDict) (k : String) (v : JValue) :
    (dictInsert d k v).length =
      if k ∈ d.map Prod.fst then d.length else d.length + 1 := by
  induction d with
  | nil => simp [dictInsert]
  | cons p rest ih =>
    obtain ⟨pk, pv⟩ := p
    by_cases hpk : pk = k
    · have hd : dictInsert ((pk, pv) :: rest) k v = (k, v) :: rest := by
        simp [dictInsert, hpk]
      rw [hd]
      subst hpk
      simp
    · have hd : dictInsert ((pk, pv) :: rest) k v = (pk, pv) :: dictInsert rest k v := by
        simp [dictInsert, hpk]
      rw [hd]
      have hkp : ¬k = pk := fun hh => hpk hh.symm
      by_cases hk : k ∈ rest.map Prod.fst <;>
        simp [List.map_cons, List.mem_cons, hk, hkp, ih]

theorem dictInsert_of_not_mem (d : PyDict) (k : String) (v : JValue) :
    k ∉ d.map Prod.fst → dictInsert d k v = d ++ [(k, v)] := by
  induction d with
  | nil => intro _; simp [dictInsert]
  | cons p rest ih =>
    intro h
    obtain ⟨pk, pv⟩ := p
    simp only [List.map_cons, List.mem_cons] at h
    push_neg at h
    have hpk : ¬pk = k := fun hh => h.1 hh.symm
    simp [dictInsert, hpk, ih h.2]

theorem callMultipleGo_eq {σ : Type} (reg : Registry σ) (names : List String) :
    ∀ (acc : PyDict) (s : σ),
      callMultipleGo reg acc s names =
        (dictOfFrom acc (callTrace reg s names).1, (callTrace reg s names).2) := by
  induction names with
  | nil => intro acc s; simp [callMultipleGo, callTrace, dictOfFrom]
  | cons n ns ih =>
    intro acc s
    simp only [callMultipleGo, callTrace, dictOfFrom, List.foldl_cons]
    exact ih _ _

theorem call_multiple_eq_dictOfFrom {σ : Type} (reg : Registry σ) (s : σ)
    (names : List String) :
    call_multiple_functions reg s names =
      (dictOfFrom [] (callTrace reg s names).1, (callTrace reg s names).2) :=
  callMultipleGo_eq reg names [] s

theorem trace_keys {σ : Type} (reg : Registry σ) (names : List String) :
    ∀ s : σ, (callTrace reg s names).1.map Prod.fst = names := by
  induction names with
  | nil => intro s; simp [callTrace]
  | cons n ns ih => intro s; simp [callTrace, ih]

theorem lookup_dictOfFrom (t : List (String × JValue)) :
    ∀ (acc : PyDict) (a : String),
      List.lookup a (dictOfFrom acc t) =
        match lastWrite a t with
        | some v => some v
        | none => List.lookup a acc := by
  induction t with
  | nil => intro acc a; simp [dictOfFrom, lastWrite]
  | cons p rest ih =>
    intro acc a
    obtain ⟨pk, pv⟩ := p
    have step : dictOfFrom acc ((pk, pv) :: rest) = dictOfFrom (dictInsert acc pk pv) rest := by
      simp [dictOfFrom]
    rw [step, ih]
    cases hlw : lastWrite a rest with
    | some v => simp [lastWrite, hlw]
    | none =>
      simp only [lastWrite, hlw]
      rw [lookup_dictInsert]
      by_cases h : a = pk
      · have hbeq : (pk == a) = true := beq_iff_eq.mpr h.symm
        simp [h, hbeq]
      · have hbeq : (pk == a) = false := beq_eq_false_iff_ne.mpr (fun hh => h hh.symm)
        simp [h, hbeq]

theorem mem_keys_dictOfFrom (t : List (String × JValue)) :
    ∀ (acc : PyDict) (a : String),
      a ∈ (dictOfFrom acc t).map Prod.fst ↔
        a ∈ acc.map Prod.fst ∨ a ∈ t.map Prod.fst := by
  induction t with
  | nil => intro acc a; simp [dictOfFrom]
  | cons p rest ih =>
    intro acc a
    obtain ⟨pk, pv⟩ := p
    have step : dictOfFrom acc ((pk, pv) :: rest) = dictOfFrom (dictInsert acc pk pv) rest := by
      simp [dictOfFrom]
    rw [step, ih]
    rw [mem_keys_dictInsert]
    simp only [List.map_cons, List.mem_cons]
    tauto

theorem nodup_keys_dictOfFrom (t : List (String × JValue)) :
    ∀ acc : PyDict, (acc.map Prod.fst).Nodup →
      ((dictOfFrom acc t).map Prod.fst).Nodup := by
  induction t with
  | nil => intro acc h; simpa [dictOfFrom] using h
  | cons p rest ih =>
    intro acc h
    obtain ⟨pk, pv⟩ := p
    have step : dictOfFrom acc ((pk, pv) :: rest) = dictOfFrom (dictInsert acc pk pv) rest := by
      simp [dictOfFrom]
    rw [step]
    exact ih _ (nodup_keys_dictInsert acc pk pv h)

theorem dictOfFrom_eq_append (t : List (String × JValue)) :
    ∀ acc : PyDict, (t.map Prod.fst).Nodup →
      (∀ a ∈ t.map Prod.fst, a ∉ acc.map Prod.fst) →
      dictOfFrom acc t = acc ++ t := by
  induction t with
  | nil => intro acc _ _; simp [dictOfFrom]
  | cons p rest ih =>
    intro acc hnd hdisj
    obtain ⟨pk, pv⟩ := p
    have step : dictOfFrom acc ((pk, pv) :: rest) = dictOfFrom (dictInsert acc pk pv) rest := by
      simp [dictOfFrom]
    have hp : pk ∉ acc.map Prod.fst := hdisj pk (by simp)
    rw [step, dictInsert_of_not_mem acc pk pv hp]
    simp only [List.map_cons, List.nodup_cons] at hnd
    have hdisj' : ∀ a ∈ rest.map Prod.fst, a ∉ (acc ++ [(pk, pv)]).map Prod.fst := by
      intro a ha
      rw [List.map_append, List.mem_append]
      push_neg
      refine ⟨hdisj a ?_, ?_⟩
      · simp only [List.map_cons, List.mem_cons]
        exact Or.inr ha
      · simp only [List.map_cons, List.map_nil, List.mem_singleton]
        intro hap
        exact hnd.1 (hap ▸ ha)
    rw [ih (acc ++ [(pk, pv)]) hnd.2 hdisj']
    simp

theorem lastWrite_eq_none_of_not_mem (t : List (String × JValue)) (a : String) :
    a ∉ t.map Prod.fst → lastWrite a t = none := by
  induction t with
  | nil => intro _; simp [lastWrite]
  | cons p rest ih =>
    intro h
    obtain ⟨pk, pv⟩ := p
    simp only [List.map_cons, List.mem_cons] at h
    push_neg at h
    have hpa : (pk == a) = false := beq_eq_false_iff_ne.mpr (fun hh => h.1 hh.symm)
    simp [lastWrite, ih h.2, hpa]

theorem lastWrite_unknown {σ : Type} (reg : Registry σ) (n : String)
    (hreg : List.lookup n reg = none) (names : List String) :
    ∀ s : σ, n ∈ names →
      lastWrite n (callTrace reg s names).1 =
        some (errorRecord ("Unknown function: " ++ n)) := by
  induction names with
  | nil => intro s h; simp at h
  | cons m rest ih =>
    intro s hmem
    by_cases hn : n ∈ rest
    · simp only [callTrace, lastWrite]
      rw [ih _ hn]
    · have hnm : n = m := by
        rcases List.mem_cons.mp hmem with h | h
        · exact h
        · exact absurd h hn
      subst hnm
      simp only [callTrace, lastWrite]
      have hnone : lastWrite n (callTrace reg (call_function reg s n).2 rest).1 = none :=
        lastWrite_eq_none_of_not_mem _ _ (by rw [trace_keys]; exact hn)
      rw [hnone]
      simp [call_function, hreg]

theorem exceptBind_ok {ε α β : Type} (a : α) (f : α → Except ε β) :
    (Except.ok a : Except ε α) >>= f = f a := rfl

theorem exceptBind_error {ε α β : Type} (e : ε) (f : α → Except ε β) :
    (Except.error e : Except ε α) >>= f = Except.error e := rfl

theorem elemsToNames_ok (xs : List JValue) :
    xs.all isStr = true → ∃ ns, elemsToNames xs = Except.ok ns := by
  induction xs with
  | nil => intro _; exact ⟨[], rfl⟩
  | cons v rest ih =>
    intro h
    simp only [List.all_cons, Bool.and_eq_true] at h
    cases v with
    | str s =>
      obtain ⟨ns, hns⟩ := ih h.2
      refine ⟨s :: ns, ?_⟩
      simp [elemsToNames, hns, Except.map]
    | null => simp [isStr] at h
    | bool b => simp [isStr] at h
    | num n => simp [isStr] at h
    | arr es => simp [isStr] at h
    | obj fs => simp [isStr] at h

theorem asNameList_ok (v : JValue) :
    isNameArr v = true → ∃ ns, asNameList v = Except.ok ns := by
  cases v with
  | arr elems =>
    intro h
    simpa [asNameList] using elemsToNames_ok elems (by simpa [isNameArr] using h)
  | null => intro h; simp [isNameArr] at h
  | bool b => intro h; simp [isNameArr] at h
  | num n => intro h; simp [isNameArr] at h
  | str s => intro h; simp [isNameArr] at h
  | obj fs => intro h; simp [isNameArr] at h

theorem generate_response_ok (p : LLMProc) (q : String) (sd : PyDict) (kvs : PyDict) :
    ∃ t, generate_response p q sd (JValue.obj kvs) = Except.ok t := by
  cases hsend : p.send (synthesisRequest p q sd (JValue.obj kvs)
      ((List.lookup ("response_style") kvs).getD (JValue.str ("conversational")))
      ((List.lookup ("focus") kvs).getD (JValue.str ("general")))) with
  | returns c =>
    exact ⟨c.text.trim, by simp [generate_response, pyGet, exceptBind_ok, hsend]⟩
  | raises m =>
    exact ⟨synthFallback sd, by simp [generate_response, pyGet, exceptBind_ok, hsend]⟩

theorem handle_query_ok_of_obj {σ : Type} (ag : Agent σ) (s : σ) (q : String) (kvs : PyDict) :
    parse_query ag.llm q (get_function_list ag.registry) = JValue.obj kvs →
    isNameArr ((List.lookup ("functions_to_call") kvs).getD (JValue.arr [])) = true →
    ∃ r s', handle_query ag s q = Except.ok (r, s') := by
  intro hp hgood
  obtain ⟨ns, hns⟩ := asNameList_ok _ hgood
  obtain ⟨t, ht⟩ :=
    generate_response_ok ag.llm q (call_multiple_functions ag.registry s ns).1 kvs
  refine ⟨t, (call_multiple_functions ag.registry s ns).2, ?_⟩
  simp [handle_query, hp, pyGet, exceptBind_ok, hns, ht]

theorem handle_query_ok_of_good {σ : Type} (ag : Agent σ) (s : σ) (q : String) :
    goodParseReply (ag.llm.send (parseRequest ag.llm q (get_function_list ag.registry))) = true →
    ∃ r s', handle_query ag s q = Except.ok (r, s') := by
  intro hgood
  cases hsend : ag.llm.send (parseRequest ag.llm q (get_function_list ag.registry)) with
  | raises m =>
    have hp : parse_query ag.llm q (get_function_list ag.registry) = JValue.obj
        [("functions_to_call", fallbackFunctions),
         ("response_style", JValue.str ("brief")),
         ("focus", JValue.str ("general")),
         ("reasoning", JValue.str ("Fallback due to API error"))] := by
      simp [parse_query, hsend, apiErrorFallback]
    exact handle_query_ok_of_obj ag s q _ hp (by decide)
  | returns c =>
    rw [hsend] at hgood
    cases hloads : c.loads with
    | none =>
      have hp : parse_query ag.llm q (get_function_list ag.registry) = JValue.obj
          [("functions_to_call", fallbackFunctions),
           ("response_style", JValue.str ("brief")),
           ("focus", JValue.str ("general")),
           ("reasoning", JValue.str ("Fallback due to parsing error"))] := by
        simp [parse_query, hsend, hloads, parseErrorFallback]
      exact handle_query_ok_of_obj ag s q _ hp (by decide)
    | some v =>
      have hp : parse_query ag.llm q (get_function_list ag.registry) = v := by
        simp [parse_query, hsend, hloads]
      cases v with
      | obj fields =>
        refine handle_query_ok_of_obj ag s q fields hp ?_
        cases hlk : List.lookup ("functions_to_call") fields with
        | none => rfl
        | some w =>
          have hw : isNameArr w = true := by
            simpa [goodParseReply, hloads, hlk] using hgood
          simpa using hw
      | null => simp [goodParseReply, hloads] at hgood
      | bool b => simp [goodParseReply, hloads] at hgood
      | num n => simp [goodParseReply, hloads] at hgood
      | str sv => simp [goodParseReply, hloads] at hgood
      | arr es => simp [goodParseReply, hloads] at hgood

/-
Claims.
-/

/-- Claim C1, counterexample: a client behaviour that returns valid JSON of a
non-object shape (the JSON array [1, 2, 3]) makes handle_query raise
AttributeError at `parsing_result.get(...)`, so the answer operation does not
return a string for every behaviour of the client, contradicting the claim. -/
theorem c1_counterexample :
    handle_query demoAgentArray 0 "What is my battery percentage?" =
      Except.error (PyErr.attributeError
        ("\x27list\x27 object has no attribute \x27get\x27")) := rfl

/-- Claim C1 (amended): handle_query returns a string and propagates no
exception whenever the parse-stage model call raises, returns non-JSON text,
or returns a JSON object whose functions_to_call field is absent or an array
of strings; a non-object JSON reply (see the counterexample) makes it raise. -/
theorem c1_handle_query_no_raise {σ : Type} (ag : Agent σ) (s : σ) (q : String)
    (h : goodParseReply
      (ag.llm.send (parseRequest ag.llm q (get_function_list ag.registry))) = true) :
    ∃ r s', handle_query ag s q = Except.ok (r, s') :=
  handle_query_ok_of_good ag s q h

/-- Claim C1 witness: the amended theorem applied to a concrete agent whose
model service raises on every call. -/
theorem c1_witness :
    goodParseReply (demoAgentDown.llm.send (parseRequest demoAgentDown.llm "hi"
        (get_function_list demoAgentDown.registry))) = true ∧
    ∃ r s', handle_query demoAgentDown 0 "hi" = Except.ok (r, s') :=
  ⟨rfl, c1_handle_query_no_raise demoAgentDown 0 "hi" rfl⟩

/-- Claim C2, counterexample: a model response that is valid JSON but fails
shape validation (the empty object, missing functions_to_call) is returned
as-is by parse_query, not replaced by the fixed fallback descriptor. -/
theorem c2_counterexample :
    parse_query emptyObjLLM "What is my battery percentage?" ["get_battery_info"] =
        JValue.obj [] ∧
    JValue.obj [] ≠ parseErrorFallback ∧ JValue.obj [] ≠ apiErrorFallback := by
  refine ⟨rfl, ?_, ?_⟩ <;> simp [parseErrorFallback, apiErrorFallback]

/-- Claim C2 (amended): parse_query performs no shape validation; every model
response whose text json.loads accepts is returned verbatim, whatever its
shape, and the fallback descriptor is produced only when the text is not
valid JSON or the call raises. -/
theorem c2_parse_returns_json_verbatim (p : LLMProc) (q : String) (av : List String)
    (c : Content) (v : JValue)
    (hsend : p.send (parseRequest p q av) = LLMReply.returns c)
    (hloads : c.loads = some v) :
    parse_query p q av = v := by
  simp [parse_query, hsend, hloads]

/-- Claim C2 witness: the amended theorem applied to the concrete client that
answers with the JSON text of an empty object. -/
theorem c2_witness :
    parse_query emptyObjLLM "q" ["get_battery_info"] = JValue.obj [] :=
  c2_parse_returns_json_verbatim emptyObjLLM "q" ["get_battery_info"] _ _ rfl rfl

/-- Claim C3: a raising parse-stage call yields the hard-coded API-error
fallback descriptor and a non-JSON response yields the hard-coded
parsing-error fallback descriptor; both carry functions_to_call =
[get_battery_info, get_cpu_info, get_memory_info], response_style "brief"
and focus "general", and their reasoning strings differ, identifying which
failure path was taken. -/
theorem c3_parse_fallback (p : LLMProc) (q : String) (av : List String) :
    (∀ m, p.send (parseRequest p q av) = LLMReply.raises m →
      parse_query p q av = apiErrorFallback) ∧
    (∀ c, p.send (parseRequest p q av) = LLMReply.returns c → c.loads = none →
      parse_query p q av = parseErrorFallback) ∧
    pyGet apiErrorFallback ("functions_to_call") JValue.null = Except.ok fallbackFunctions ∧
    pyGet apiErrorFallback ("response_style") JValue.null = Except.ok (JValue.str ("brief")) ∧
    pyGet apiErrorFallback ("focus") JValue.null = Except.ok (JValue.str ("general")) ∧
    pyGet apiErrorFallback ("reasoning") JValue.null =
      Except.ok (JValue.str ("Fallback due to API error")) ∧
    pyGet parseErrorFallback ("functions_to_call") JValue.null = Except.ok fallbackFunctions ∧
    pyGet parseErrorFallback ("response_style") JValue.null = Except.ok (JValue.str ("brief")) ∧
    pyGet parseErrorFallback ("focus") JValue.null = Except.ok (JValue.str ("general")) ∧
    pyGet parseErrorFallback ("reasoning") JValue.null =
      Except.ok (JValue.str ("Fallback due to parsing error")) ∧
    JValue.str ("Fallback due to API error") ≠ JValue.str ("Fallback due to parsing error") := by
  refine ⟨?_, ?_, rfl, rfl, rfl, rfl, rfl, rfl, rfl, rfl, ?_⟩
  · intro m h
    simp [parse_query, h]
  · intro c h hl
    simp [parse_query, h, hl]
  · intro hh
    exact absurd (JValue.str.inj hh) (by decide)

/-- Claim C3 witness: the theorem applied to a client that raises on every
call and to a client that answers every call with non-JSON prose. -/
theorem c3_witness :
    parse_query downLLM "q" [] = apiErrorFallback ∧
    parse_query notJsonLLM "q" [] = parseErrorFallback :=
  ⟨(c3_parse_fallback downLLM "q" []).1 "service unavailable" rfl,
   (c3_parse_fallback notJsonLLM "q" []).2.1 _ rfl rfl⟩

/-- Claim C4: call_function is total (never raises); an unregistered name
yields an error record naming the unknown function, and a raising collector
is caught and converted to an error record carrying the exception message. -/
theorem c4_call_function_total {σ : Type} (reg : Registry σ) (s : σ) (name : String) :
    (List.lookup name reg = none →
      call_function reg s name = (errorRecord ("Unknown function: " ++ name), s)) ∧
    (∀ coll e s', List.lookup name reg = some coll → coll s = (CollOutcome.exn e, s') →
      call_function reg s name =
        (errorRecord ("Error calling " ++ name ++ ": " ++ e), s')) := by
  constructor
  · intro h
    simp [call_function, h]
  · intro coll e s' h hc
    simp [call_function, h, hc]

/-- Claim C4 witness: the theorem applied to a concrete registry whose only
collector raises, at an unknown name and at the raising collector's name. -/
theorem c4_witness :
    call_function boomRegistry 0 "nope" = (errorRecord ("Unknown function: nope"), 0) ∧
    call_function boomRegistry 0 "get_cpu_info" =
      (errorRecord ("Error calling get_cpu_info: boom"), 0) :=
  ⟨(c4_call_function_total boomRegistry 0 "nope").1 rfl,
   (c4_call_function_total boomRegistry 0 "get_cpu_info").2 boomColl "boom" 0 rfl rfl⟩

/-- Claim C5: if the synthesis-stage model call raises, generate_response
returns (without raising) the fixed non-empty fallback string, which states
that a response could not be generated and ends with the rendered DataBundle
content; quantified over every query, DataBundle and IntentDescriptor (a
four-field JSON object per the data model, here any JSON object). -/
theorem c5_generate_response_fallback (p : LLMProc) (q : String) (sd : PyDict)
    (kvs : PyDict) (m : String)
    (h : p.send (synthesisRequest p q sd (JValue.obj kvs)
        ((List.lookup ("response_style") kvs).getD (JValue.str ("conversational")))
        ((List.lookup ("focus") kvs).getD (JValue.str ("general")))) = LLMReply.raises m) :
    generate_response p q sd (JValue.obj kvs) = Except.ok (synthFallback sd) ∧
    synthFallback sd ≠ "" ∧
    synthFallback sd =
      "I gathered your system information but had trouble generating a response. Here\x27s the raw data: "
        ++ pyStr (JValue.obj sd) := by
  refine ⟨?_, ?_, rfl⟩
  · simp [generate_response, pyGet, exceptBind_ok, h]
  · intro hh
    have hlen := congrArg String.length hh
    rw [synthFallback, String.length_append] at hlen
    have h0 : String.length "" = 0 := rfl
    rw [h0] at hlen
    have hpre : 0 < String.length
        ("I gathered your system information but had trouble generating a response. Here\x27s the raw data: ") := by
      decide
    omega

/-- Claim C5 witness: the theorem applied to a concrete raising client, an
empty DataBundle and an empty descriptor object. -/
theorem c5_witness :
    generate_response downLLM "q" [] (JValue.obj []) = Except.ok (synthFallback []) ∧
    synthFallback [] ≠ "" ∧
    synthFallback [] =
      "I gathered your system information but had trouble generating a response. Here\x27s the raw data: "
        ++ pyStr (JValue.obj []) :=
  c5_generate_response_fallback downLLM "q" [] [] "service unavailable" rfl

/-- Claim C6, counterexample: for the duplicate list
["get_cpu_info", "get_cpu_info"] the DataBundle has one entry while the input
list has two, so |DataBundle| == |functions_to_call| fails. -/
theorem c6_counterexample :
    ¬ ((call_multiple_functions demoRegistry 0 ["get_cpu_info", "get_cpu_info"]).1.length
        = (["get_cpu_info", "get_cpu_info"] : List String).length) := by
  decide

/-- Claim C6 (amended): the DataBundle returned by call_multiple_functions
has exactly one entry per distinct name in functions_to_call — its size is
the length of the deduplicated input list, which equals the input length only
when the input has no duplicates. -/
theorem c6_bundle_length {σ : Type} (reg : Registry σ) (s : σ) (names : List String) :
    (call_multiple_functions reg s names).1.length = names.dedup.length := by
  have hb : (call_multiple_functions reg s names).1 = dictOfFrom [] (callTrace reg s names).1 :=
    congrArg Prod.fst (call_multiple_eq_dictOfFrom reg s names)
  rw [hb]
  have hnd : ((dictOfFrom [] (callTrace reg s names).1).map Prod.fst).Nodup :=
    nodup_keys_dictOfFrom _ [] (by simp)
  have hmem : ∀ a, a ∈ (dictOfFrom [] (callTrace reg s names).1).map Prod.fst ↔ a ∈ names := by
    intro a
    rw [mem_keys_dictOfFrom, trace_keys]
    simp
  calc (dictOfFrom [] (callTrace reg s names).1).length
      = ((dictOfFrom [] (callTrace reg s names).1).map Prod.fst).length :=
        (List.length_map _ _).symm
    _ = ((dictOfFrom [] (callTrace reg s names).1).map Prod.fst).toFinset.card :=
        (List.toFinset_card_of_nodup hnd).symm
    _ = names.dedup.toFinset.card := by
        congr 1
        apply List.toFinset.ext
        intro a
        rw [hmem a, List.mem_dedup]
    _ = names.dedup.length := List.toFinset_card_of_nodup (List.nodup_dedup names)

/-- Claim C7: a name occurring more than once in functions_to_call yields
exactly one DataBundle entry, whose value is the result of the last
invocation of that name in the invocation trace (last-write-wins), with no
error involved. -/
theorem c7_last_write_wins {σ : Type} (reg : Registry σ) (s : σ) (names : List String)
    (n : String) (h : 2 ≤ names.count n) :
    ((call_multiple_functions reg s names).1.map Prod.fst).count n = 1 ∧
    List.lookup n (call_multiple_functions reg s names).1 =
      lastWrite n (callTrace reg s names).1 := by
  have hb : (call_multiple_functions reg s names).1 = dictOfFrom [] (callTrace reg s names).1 :=
    congrArg Prod.fst (call_multiple_eq_dictOfFrom reg s names)
  have hmemn : n ∈ names := List.count_pos_iff.mp (by omega)
  constructor
  · rw [hb]
    have hnd : ((dictOfFrom [] (callTrace reg s names).1).map Prod.fst).Nodup :=
      nodup_keys_dictOfFrom _ [] (by simp)
    have hmem : n ∈ (dictOfFrom [] (callTrace reg s names).1).map Prod.fst := by
      rw [mem_keys_dictOfFrom, trace_keys]
      exact Or.inr hmemn
    exact List.count_eq_one_of_mem hnd hmem
  · rw [hb, lookup_dictOfFrom]
    cases hlw : lastWrite n (callTrace reg s names).1 with
    | some v => rfl
    | none => simp [List.lookup]

/-- Claim C7 witness: the theorem applied to the duplicate list
["get_cpu_info", "get_cpu_info"] over a stateful collector, showing the
single retained entry holds the second (last) invocation's result. -/
theorem c7_witness :
    2 ≤ (["get_cpu_info", "get_cpu_info"] : List String).count "get_cpu_info" ∧
    (((call_multiple_functions demoRegistry 0 ["get_cpu_info", "get_cpu_info"]).1.map
        Prod.fst).count "get_cpu_info" = 1 ∧
      List.lookup "get_cpu_info"
          (call_multiple_functions demoRegistry 0 ["get_cpu_info", "get_cpu_info"]).1 =
        lastWrite "get_cpu_info"
          (callTrace demoRegistry 0 ["get_cpu_info", "get_cpu_info"]).1) ∧
    List.lookup "get_cpu_info"
        (call_multiple_functions demoRegistry 0 ["get_cpu_info", "get_cpu_info"]).1 =
      some (JValue.num 1) :=
  ⟨by decide,
   c7_last_write_wins demoRegistry 0 ["get_cpu_info", "get_cpu_info"] "get_cpu_info"
     (by decide),
   rfl⟩

/-- Claim C8: call_multiple_functions applies call_function to each name in
input order (with no keyword arguments — call_function here takes none):
the empty list yields the empty DataBundle with the state untouched; for a
duplicate-free list the DataBundle is exactly the in-order invocation trace;
and an unregistered name's entry is the unknown-function error record,
substituted in place rather than dropped. -/
theorem c8_invoke_many_order {σ : Type} (reg : Registry σ) (s : σ) :
    call_multiple_functions reg s [] = ([], s) ∧
    (∀ names : List String, names.Nodup →
      (call_multiple_functions reg s names).1 = (callTrace reg s names).1) ∧
    (∀ (names : List String) (n : String), n ∈ names → List.lookup n reg = none →
      List.lookup n (call_multiple_functions reg s names).1 =
        some (errorRecord ("Unknown function: " ++ n))) := by
  refine ⟨rfl, ?_, ?_⟩
  · intro names hnd
    have hb : (call_multiple_functions reg s names).1 =
        dictOfFrom [] (callTrace reg s names).1 :=
      congrArg Prod.fst (call_multiple_eq_dictOfFrom reg s names)
    rw [hb, dictOfFrom_eq_append (callTrace reg s names).1 []
      (by rw [trace_keys]; exact hnd) (by simp)]
    simp
  · intro names n hmem hreg
    have hb : (call_multiple_functions reg s names).1 =
        dictOfFrom [] (callTrace reg s names).1 :=
      congrArg Prod.fst (call_multiple_eq_dictOfFrom reg s names)
    rw [hb, lookup_dictOfFrom, lastWrite_unknown reg n hreg names s hmem]

/-- Claim C8 witness: the theorem applied to a concrete registry and the list
["get_battery_info", "nope"], whose second name is unregistered. -/
theorem c8_witness :
    call_multiple_functions demoRegistry 0 [] = ([], 0) ∧
    (call_multiple_functions demoRegistry 0 ["get_battery_info", "nope"]).1 =
      (callTrace demoRegistry 0 ["get_battery_info", "nope"]).1 ∧
    List.lookup "nope"
        (call_multiple_functions demoRegistry 0 ["get_battery_info", "nope"]).1 =
      some (errorRecord ("Unknown function: nope")) :=
  ⟨(c8_invoke_many_order demoRegistry 0).1,
   (c8_invoke_many_order demoRegistry 0).2.1 ["get_battery_info", "nope"] (by decide),
   (c8_invoke_many_order demoRegistry 0).2.2 ["get_battery_info", "nope"] "nope"
     (by decide) rfl⟩

/-- Claim C9, counterexample: when the representative collector succeeds and
the model connection is unreachable, test_components returns the mapping with
keys "system_collector" and "llm_processor" (true and false respectively),
not the claim's literal mapping keyed "metrics_registry"/"llm_connection". -/
theorem c9_counterexample :
    (test_components demoAgentDown 0).1 =
        [("system_collector", true), ("llm_processor", false)] ∧
    (test_components demoAgentDown 0).1 ≠
        [("metrics_registry", true), ("llm_connection", false)] := by
  constructor
  · rfl
  · decide

/-- Claim C9 (amended): when the representative collector succeeds and every
model call raises, test_components maps the metrics-registry component (key
"system_collector") to true and the model-connection component (key
"llm_processor") to false, and handle_query remains independently callable,
returning a string for any query. -/
theorem c9_health_check {σ : Type} (ag : Agent σ) (s : σ) (coll : Collector σ)
    (v : JValue) (s' : σ) (m : String)
    (hcpu : List.lookup ("get_cpu_info") ag.registry = some coll)
    (hok : coll s = (CollOutcome.ok v, s'))
    (hdown : ∀ r, ag.llm.send r = LLMReply.raises m) :
    (test_components ag s).1 = [("system_collector", true), ("llm_processor", false)] ∧
    ∀ q, ∃ r s₂, handle_query ag s q = Except.ok (r, s₂) := by
  constructor
  · have hconn : test_connection ag.llm = false := by
      simp [test_connection, hdown]
    simp [test_components, hcpu, hok, hconn]
  · intro q
    apply handle_query_ok_of_good
    rw [hdown]
    rfl

/-- Claim C9 witness: the amended theorem applied to a concrete agent with
working collectors and a model service that raises on every call. -/
theorem c9_witness :
    (test_components demoAgentDown 0).1 =
        [("system_collector", true), ("llm_processor", false)] ∧
    ∀ q, ∃ r s₂, handle_query demoAgentDown 0 q = Except.ok (r, s₂) :=
  c9_health_check demoAgentDown 0 counterColl (JValue.num 0) 1 "service unavailable"
    rfl rfl (fun _ => rfl)

/-- Claim C10 (implicit): when parse_query hands back a JSON object lacking
functions_to_call, handle_query defaults functions_to_call to the empty
list — invoking no collectors (the telemetry state is returned unchanged) and
proceeding to synthesis with the empty DataBundle — rather than substituting
the fallback triple of default collectors. -/
theorem c10_missing_functions_field {σ : Type} (ag : Agent σ) (s : σ) (q : String)
    (c : Content) (kvs : PyDict)
    (hsend : ag.llm.send (parseRequest ag.llm q (get_function_list ag.registry)) =
      LLMReply.returns c)
    (hloads : c.loads = some (JValue.obj kvs))
    (hmissing : List.lookup ("functions_to_call") kvs = none) :
    ∃ t, generate_response ag.llm q [] (JValue.obj kvs) = Except.ok t ∧
      handle_query ag s q = Except.ok (t, s) := by
  obtain ⟨t, ht⟩ := generate_response_ok ag.llm q [] kvs
  refine ⟨t, ht, ?_⟩
  have hp : parse_query ag.llm q (get_function_list ag.registry) = JValue.obj kvs := by
    simp [parse_query, hsend, hloads]
  simp [handle_query, hp, pyGet, exceptBind_ok, hmissing, asNameList, elemsToNames,
    call_multiple_functions, callMultipleGo, ht]

/-- Claim C10 witness: the theorem applied to a concrete agent whose model
answers with an object lacking functions_to_call. -/
theorem c10_witness :
    ∃ t, generate_response demoAgentMissing.llm "hi" []
        (JValue.obj [("reasoning", JValue.str ("hi"))]) = Except.ok t ∧
      handle_query demoAgentMissing 0 "hi" = Except.ok (t, 0) :=
  c10_missing_functions_field demoAgentMissing 0 "hi" _ _ rfl rfl rfl

end SysMon
